import Mathlib

/-!
Verification of the finance-summary hooks of the `dashboard-ozon` repository
(`src/src/hooks/useFinanceData.ts`).

The file shallowly embeds the two query functions of that module:

* `useFinanceData` — a two-tier summary resolver: a primary path that maps the
  row returned by the `get_finance_summary` remote procedure into a
  `FinanceSummary`, and a fallback path that reconstructs an approximate
  summary from raw `postings_fbs` rows when the primary path throws; both
  paths then run the same inline block that turns the summary into a sorted
  category breakdown for the pie chart.
* `useFinanceBreakdown` — a single-fetch resolver that maps each raw
  `transactions` row into a per-row breakdown record.

JavaScript numbers are modelled as exact rationals (`ℚ`).  A raw field value
coming from the database is modelled as `Option ℚ` (respectively
`Option String`): `none` stands for `null` / missing / non-numeric data.
External fetch results are modelled as `Except ε _` values handed to the
resolver, so the try/catch control flow becomes an explicit match.
-/

namespace FinanceDash

/-- Modelled from the spec: the numeric-normalization helper `toNumber`
(imported from `../lib/format`, a file not included in the sources) maps
`null`, missing and non-numeric inputs to `0` and is otherwise the numeric
value itself.  A raw field is an `Option ℚ`, with `none` covering the
null / missing / non-numeric cases.  The `|| 0` the hook applies after
`toNumber` is the identity here: `toNumber` already yields `0` on bad input
and exact rationals have no `NaN` and no negative zero. -/
def toNum (o : Option ℚ) : ℚ := o.getD 0

/-- JavaScript `a || b` for nullable strings: `null`, missing and the empty
string are falsy and fall through to the default. -/
def strOr (o : Option String) (d : String) : String :=
  match o with
  | none => d
  | some s => if s = "" then d else s

/-- The `FinanceSummary` interface of the hook: six category amounts and
three derived totals. -/
structure FinanceSummary where
  sales : ℚ
  commissions : ℚ
  delivery : ℚ
  returns : ℚ
  ads : ℚ
  services : ℚ
  totalIncome : ℚ
  totalExpenses : ℚ
  netProfit : ℚ
deriving DecidableEq

/-- The six keys of the `CATEGORY_COLORS` / `CATEGORY_LABELS` lookup tables,
in object insertion order. -/
inductive CatKey
  | sales
  | commissions
  | delivery
  | returns
  | ads
  | services
deriving DecidableEq, Fintype

/-- The `CATEGORY_LABELS` table. -/
def CATEGORY_LABELS : CatKey → String
  | .sales => "Продажи"
  | .commissions => "Комиссии"
  | .delivery => "Доставка"
  | .returns => "Возвраты"
  | .ads => "Реклама"
  | .services => "Услуги"

/-- The `CATEGORY_COLORS` table. -/
def CATEGORY_COLORS : CatKey → String
  | .sales => "#10b981"
  | .commissions => "#ef4444"
  | .delivery => "#f59e0b"
  | .returns => "#8b5cf6"
  | .ads => "#06b6d4"
  | .services => "#84cc16"

/-- The `FinanceCategory` interface (a category share of the pie chart). -/
structure FinanceCategory where
  category : String
  amount : ℚ
  percentage : ℚ
  color : String
deriving DecidableEq

/-- The field of `summary` a category key reads
(`Object.entries(summary)` restricted to keys of `CATEGORY_COLORS`). -/
def catField (s : FinanceSummary) : CatKey → ℚ
  | .sales => s.sales
  | .commissions => s.commissions
  | .delivery => s.delivery
  | .returns => s.returns
  | .ads => s.ads
  | .services => s.services

/-- The order in which `Object.entries(summary)` visits the six category
keys: insertion order of the `FinanceSummary` object literal. -/
def catKeys : List CatKey :=
  [.sales, .commissions, .delivery, .returns, .ads, .services]

/-- `const amount = key === 'sales' ? value : Math.abs(value)`. -/
def catAmount (k : CatKey) (v : ℚ) : ℚ :=
  if k = CatKey.sales then v else |v|

/-- `total > 0 ? (amount / total) * 100 : 0`. -/
def catPercent (total amount : ℚ) : ℚ :=
  if 0 < total then amount / total * 100 else 0

/-- The category record pushed for one nonzero entry. -/
def mkCategory (total : ℚ) (k : CatKey) (v : ℚ) : FinanceCategory :=
  { category := CATEGORY_LABELS k
    amount := catAmount k v
    percentage := catPercent total (catAmount k v)
    color := CATEGORY_COLORS k }

/-- `const total = summary.totalIncome + summary.totalExpenses`. -/
def summaryTotal (s : FinanceSummary) : ℚ :=
  s.totalIncome + s.totalExpenses

/-- The comparator `(a, b) => b.amount - a.amount` passed to
`Array.prototype.sort`: `a` sorts before `b` exactly when
`b.amount - a.amount ≤ 0`, i.e. descending by amount. -/
def byAmountDesc (a b : FinanceCategory) : Prop :=
  b.amount ≤ a.amount

instance : DecidableRel byAmountDesc :=
  fun a b => inferInstanceAs (Decidable (b.amount ≤ a.amount))

instance : IsTotal FinanceCategory byAmountDesc :=
  ⟨fun a b => le_total b.amount a.amount⟩

instance : IsTrans FinanceCategory byAmountDesc :=
  ⟨fun _ _ _ h1 h2 => le_trans h2 h1⟩

/-- The inline block shared verbatim by both paths of `useFinanceData`
(lines 77–96 and 163–181 of the hook are identical): walk the six category
entries in insertion order, skip entries whose raw value is exactly `0`,
build a `FinanceCategory` for each remaining entry, and sort descending by
amount.  `Array.prototype.sort` is a stable sort (ES2019); with a total
transitive comparator a stable sort has a unique result, so it is modelled
by the stable `List.insertionSort`. -/
def buildCategories (s : FinanceSummary) : List FinanceCategory :=
  List.insertionSort byAmountDesc
    ((catKeys.filter (fun k => catField s k ≠ 0)).map
      (fun k => mkCategory (summaryTotal s) k (catField s k)))

/-- A row of the `get_finance_summary` remote procedure result, all fields
numeric-or-null. -/
structure RpcRow where
  total_sales : Option ℚ
  total_commissions : Option ℚ
  total_delivery : Option ℚ
  total_returns : Option ℚ
  total_ads : Option ℚ
  total_services : Option ℚ
  total_income : Option ℚ
  total_expenses : Option ℚ
  net_profit : Option ℚ
deriving DecidableEq

/-- `data?.[0] || {}`: the first RPC row, or a row of all-missing fields
when the result is `null` or empty. -/
def headRow (rows : List RpcRow) : RpcRow :=
  rows.headD ⟨none, none, none, none, none, none, none, none, none⟩

/-- The primary-path summary: each field of the first RPC row pushed through
`toNumber(...) || 0`. -/
def primarySummary (rows : List RpcRow) : FinanceSummary :=
  { sales := toNum (headRow rows).total_sales
    commissions := toNum (headRow rows).total_commissions
    delivery := toNum (headRow rows).total_delivery
    returns := toNum (headRow rows).total_returns
    ads := toNum (headRow rows).total_ads
    services := toNum (headRow rows).total_services
    totalIncome := toNum (headRow rows).total_income
    totalExpenses := toNum (headRow rows).total_expenses
    netProfit := toNum (headRow rows).net_profit }

/-- A raw `postings_fbs` row as selected by the fallback query
(`price, quantity, commission_amount`). -/
structure PostingRow where
  price : Option ℚ
  quantity : Option ℚ
  commission_amount : Option ℚ
deriving DecidableEq

/-- `postingsData?.reduce((sum, item) => sum + price * quantity, 0) || 0`. -/
def fallbackTotalSales (rows : List PostingRow) : ℚ :=
  rows.foldl (fun sum item => sum + toNum item.price * toNum item.quantity) 0

/-- `postingsData?.reduce((sum, item) => sum + Math.abs(commission), 0) || 0`. -/
def fallbackTotalCommissions (rows : List PostingRow) : ℚ :=
  rows.foldl (fun sum item => sum + |toNum item.commission_amount|) 0

/-- The fallback-path summary reconstructed from raw postings rows: measured
sales and commissions, four expense categories as fixed ratios of sales, and
totals derived from those. -/
def fallbackSummary (rows : List PostingRow) : FinanceSummary :=
  { sales := fallbackTotalSales rows
    commissions := fallbackTotalCommissions rows
    delivery := fallbackTotalSales rows * 0.08
    returns := fallbackTotalSales rows * 0.02
    ads := fallbackTotalSales rows * 0.03
    services := fallbackTotalSales rows * 0.05
    totalIncome := fallbackTotalSales rows
    totalExpenses := fallbackTotalCommissions rows
      + fallbackTotalSales rows * 0.08 + fallbackTotalSales rows * 0.02
      + fallbackTotalSales rows * 0.03 + fallbackTotalSales rows * 0.05
    netProfit := fallbackTotalSales rows
      - (fallbackTotalCommissions rows
        + fallbackTotalSales rows * 0.08 + fallbackTotalSales rows * 0.02
        + fallbackTotalSales rows * 0.03 + fallbackTotalSales rows * 0.05) }

/-- The value `useFinanceData`'s query function resolves with:
`{ summary, categories }`. -/
structure FinanceResult where
  summary : FinanceSummary
  categories : List FinanceCategory
deriving DecidableEq

/-- The primary-path result. -/
def primaryResult (rows : List RpcRow) : FinanceResult :=
  { summary := primarySummary rows
    categories := buildCategories (primarySummary rows) }

/-- The fallback-path result. -/
def fallbackResult (rows : List PostingRow) : FinanceResult :=
  { summary := fallbackSummary rows
    categories := buildCategories (fallbackSummary rows) }

/-- The try/catch control flow of `useFinanceData`: the whole primary path
runs inside `try`; any primary failure (a rejected call or a non-null
`error` field, both modelled by `Except.error`) lands in `catch`, which runs
the fallback query and rethrows only `postingsError`. -/
def resolveSummary {ε : Type} (primary : Except ε (List RpcRow))
    (fallback : Except ε (List PostingRow)) : Except ε FinanceResult :=
  match primary with
  | .ok rows => .ok (primaryResult rows)
  | .error _ =>
    match fallback with
    | .ok posts => .ok (fallbackResult posts)
    | .error e => .error e

/-- A raw `transactions` row as selected by `useFinanceBreakdown`. -/
structure LedgerRow where
  operation_id : Option String
  posting_number : Option String
  operation_type : Option String
  operation_type_name : Option String
  operation_date : Option String
  amount : Option ℚ
  type : Option String
deriving DecidableEq

/-- A row of the breakdown table produced by `useFinanceBreakdown`. -/
structure BreakdownRow where
  date_msk : String
  posting_number : String
  sales : ℚ
  commissions : ℚ
  delivery : ℚ
  returns : ℚ
  ads : ℚ
  services : ℚ
  net_profit : ℚ
  operation_type : String
deriving DecidableEq

/-- The per-row mapping of `useFinanceBreakdown`.  `today` models
`formatMoscowDate(new Date())`, the default used when `operation_date` is
missing.  `net_profit` is `toNumber(item.amount) || 0`, which equals
`toNum item.amount` because `toNum` never yields `NaN` or negative zero. -/
def mapLedgerRow (today : String) (item : LedgerRow) : BreakdownRow :=
  { date_msk := strOr item.operation_date today
    posting_number := strOr item.posting_number "N/A"
    sales := if 0 < toNum item.amount then toNum item.amount else 0
    commissions := if toNum item.amount < 0 then |toNum item.amount| else 0
    delivery := 0
    returns := 0
    ads := 0
    services := 0
    net_profit := toNum item.amount
    operation_type :=
      strOr item.operation_type_name (strOr item.operation_type "N/A") }

/-- The single-fetch control flow of `useFinanceBreakdown`: a fetch error is
rethrown unchanged, otherwise every row (`data || []`) is mapped. -/
def resolveBreakdown {ε : Type} (today : String)
    (fetched : Except ε (List LedgerRow)) : Except ε (List BreakdownRow) :=
  match fetched with
  | .error e => .error e
  | .ok data => .ok (data.map (mapLedgerRow today))

/-- Sum of the `percentage` fields of a category list. -/
def sumPercentages (l : List FinanceCategory) : ℚ :=
  (l.map (fun c => c.percentage)).sum

end FinanceDash

namespace FinanceDash

/-! ### Helper lemmas shared by the claim theorems -/

lemma catAmount_zero (k : CatKey) : catAmount k 0 = 0 := by
  unfold catAmount; split <;> simp

lemma catPercent_zero (t : ℚ) : catPercent t 0 = 0 := by
  unfold catPercent; split <;> simp

lemma sum_map_filter_of_zero {α : Type} (p : α → Bool) (f : α → ℚ)
    (h0 : ∀ a, p a = false → f a = 0) :
    ∀ l : List α, ((l.filter p).map f).sum = (l.map f).sum := by
  intro l
  induction l with
  | nil => simp
  | cons a l ih =>
    cases hpa : p a with
    | true => simp [List.filter_cons, hpa, ih]
    | false => simp [List.filter_cons, hpa, ih, h0 a hpa]

lemma sumPercentages_build (s : FinanceSummary) :
    sumPercentages (buildCategories s)
      = catPercent (summaryTotal s) (catAmount .sales s.sales)
      + catPercent (summaryTotal s) (catAmount .commissions s.commissions)
      + catPercent (summaryTotal s) (catAmount .delivery s.delivery)
      + catPercent (summaryTotal s) (catAmount .returns s.returns)
      + catPercent (summaryTotal s) (catAmount .ads s.ads)
      + catPercent (summaryTotal s) (catAmount .services s.services) := by
  unfold sumPercentages buildCategories
  rw [List.Perm.sum_eq (List.Perm.map _ (List.perm_insertionSort _ _))]
  rw [List.map_map]
  rw [sum_map_filter_of_zero _ _ ?_ catKeys]
  · simp [catKeys, catField, mkCategory]
    ring
  · intro k hk
    have h : catField s k = 0 := by simpa using hk
    simp [mkCategory, h, catAmount_zero, catPercent_zero]

lemma mem_buildCategories {s : FinanceSummary} {c : FinanceCategory}
    (hc : c ∈ buildCategories s) :
    ∃ k, catField s k ≠ 0 ∧ c = mkCategory (summaryTotal s) k (catField s k) := by
  unfold buildCategories at hc
  rw [(List.perm_insertionSort _ _).mem_iff] at hc
  rcases List.mem_map.mp hc with ⟨k, hk, rfl⟩
  rcases List.mem_filter.mp hk with ⟨_, hne⟩
  exact ⟨k, by simpa using hne, rfl⟩

lemma labels_inj : ∀ k1 k2 : CatKey, CATEGORY_LABELS k1 = CATEGORY_LABELS k2 → k1 = k2 := by
  decide

lemma foldl_add_nonneg {α : Type} (g : α → ℚ) (hg : ∀ x, 0 ≤ g x) :
    ∀ (l : List α) (a : ℚ), 0 ≤ a → 0 ≤ l.foldl (fun s x => s + g x) a := by
  intro l
  induction l with
  | nil => intro a ha; simpa using ha
  | cons x l ih => intro a ha; exact ih _ (add_nonneg ha (hg x))

lemma fallbackTotalCommissions_nonneg (rows : List PostingRow) :
    0 ≤ fallbackTotalCommissions rows :=
  foldl_add_nonneg _ (fun _ => abs_nonneg _) rows 0 le_rfl

end FinanceDash

namespace FinanceDash

/-! ### Claim theorems -/

/-- Claim C1, counterexample: on the primary path the resolver copies
`net_profit` verbatim from the RPC row, so an RPC row with
`total_income = 10`, `total_expenses = 3` and `net_profit = 5` yields a
summary whose `netProfit` differs from `totalIncome - totalExpenses`. -/
theorem netProfit_invariant_fails_on_primary :
    ¬ ((primarySummary [⟨none, none, none, none, none, none, some 10, some 3, some 5⟩]).netProfit
      = (primarySummary
          [⟨none, none, none, none, none, none, some 10, some 3, some 5⟩]).totalIncome
        - (primarySummary
            [⟨none, none, none, none, none, none, some 10, some 3, some 5⟩]).totalExpenses) := by
  norm_num [primarySummary, headRow, toNum]

/-- Claim C1, amended: on the fallback path `netProfit` always equals
`totalIncome - totalExpenses` by construction; on the primary path the
summary's `netProfit` is the RPC-supplied `net_profit` verbatim, so the
invariant holds exactly when the RPC row itself satisfies it (in particular
when the RPC returns no rows and every field is zero). -/
theorem netProfit_invariant_amended :
    (∀ posts : List PostingRow,
      (fallbackSummary posts).netProfit
        = (fallbackSummary posts).totalIncome - (fallbackSummary posts).totalExpenses) ∧
    (∀ rows : List RpcRow,
      toNum (headRow rows).net_profit
          = toNum (headRow rows).total_income - toNum (headRow rows).total_expenses →
        (primarySummary rows).netProfit
          = (primarySummary rows).totalIncome - (primarySummary rows).totalExpenses) := by
  constructor
  · intro posts
    simp [fallbackSummary]
  · intro rows h
    simpa [primarySummary] using h

/-- Witness for the amended C1 theorem at concrete inputs: the empty
postings list and the empty RPC result. -/
theorem netProfit_invariant_amended_witness :
    (fallbackSummary []).netProfit
      = (fallbackSummary []).totalIncome - (fallbackSummary []).totalExpenses ∧
    (primarySummary []).netProfit
      = (primarySummary []).totalIncome - (primarySummary []).totalExpenses :=
  ⟨netProfit_invariant_amended.1 [],
    netProfit_invariant_amended.2 [] (by norm_num [headRow, toNum])⟩

/-- Claim C2: the summary resolver returns the primary result whenever the
RPC call succeeds; a primary failure is swallowed and the fallback result is
returned when the postings query succeeds; only a fallback failure is
surfaced, and the surfaced error is exactly the postings error (no third
tier).  The ledger-breakdown resolver maps its rows on success and surfaces
exactly its single fetch error on failure, with no fallback. -/
theorem resolver_error_semantics {ε : Type} (f : Except ε (List PostingRow))
    (rows : List RpcRow) (e e2 : ε) (posts : List PostingRow)
    (today : String) (d : List LedgerRow) :
    resolveSummary (Except.ok rows) f = Except.ok (primaryResult rows) ∧
    resolveSummary (Except.error e) (Except.ok posts) = Except.ok (fallbackResult posts) ∧
    resolveSummary (Except.error e) (Except.error e2)
      = (Except.error e2 : Except ε FinanceResult) ∧
    resolveBreakdown today (Except.ok d : Except ε (List LedgerRow))
      = Except.ok (d.map (mapLedgerRow today)) ∧
    resolveBreakdown today (Except.error e : Except ε (List LedgerRow))
      = Except.error e :=
  ⟨rfl, rfl, rfl, rfl, rfl⟩

/-- Claim C3, counterexample: a primary-path summary built from an RPC row
whose category fields are inconsistent with its totals
(`total_sales = 1000`, `total_income = total_expenses = 1`) emits a category
list whose percentages sum to `50000`, far above `100`. -/
theorem percentage_sum_exceeds_100_on_primary :
    100 < sumPercentages (buildCategories (primarySummary
      [⟨some 1000, none, none, none, none, none, some 1, some 1, none⟩])) := by
  norm_num [sumPercentages, buildCategories, catKeys, catField, primarySummary,
    headRow, toNum, mkCategory, catAmount, catPercent, summaryTotal,
    List.filter_cons, CATEGORY_LABELS, CATEGORY_COLORS]

/-- Claim C3, amended: for every summary (either path), when
`totalIncome + totalExpenses = 0` every emitted percentage is `0`; and on
the fallback path, whenever the reconstructed total sales is non-negative,
the percentages of the emitted categories sum to at most `100`.  On the
primary path the bound can fail for RPC rows whose totals are inconsistent
with their category fields. -/
theorem percentage_sum_amended :
    (∀ s : FinanceSummary, summaryTotal s = 0 →
      ∀ c ∈ buildCategories s, c.percentage = 0) ∧
    (∀ posts : List PostingRow, 0 ≤ fallbackTotalSales posts →
      sumPercentages (buildCategories (fallbackSummary posts)) ≤ 100) := by
  constructor
  · intro s h c hc
    rcases mem_buildCategories hc with ⟨k, _, rfl⟩
    simp [mkCategory, catPercent, h]
  · intro posts hS
    have hC : 0 ≤ fallbackTotalCommissions posts := fallbackTotalCommissions_nonneg posts
    rw [sumPercentages_build]
    simp only [fallbackSummary, summaryTotal, catAmount, if_pos, reduceIte,
      abs_of_nonneg hC, abs_of_nonneg (mul_nonneg hS (by norm_num : (0:ℚ) ≤ 0.08)),
      abs_of_nonneg (mul_nonneg hS (by norm_num : (0:ℚ) ≤ 0.02)),
      abs_of_nonneg (mul_nonneg hS (by norm_num : (0:ℚ) ≤ 0.03)),
      abs_of_nonneg (mul_nonneg hS (by norm_num : (0:ℚ) ≤ 0.05))]
    by_cases ht : 0 < fallbackTotalSales posts
      + (fallbackTotalCommissions posts
        + fallbackTotalSales posts * 0.08 + fallbackTotalSales posts * 0.02
        + fallbackTotalSales posts * 0.03 + fallbackTotalSales posts * 0.05)
    · simp only [catPercent, if_pos ht]
      simp only [ite_self]
      apply le_of_eq
      field_simp
      ring
    · simp [catPercent, ht]

/-- Witness for the amended C3 theorem: a primary summary with zero total
(sales `7`, no totals) emits only zero percentages, and a concrete
fallback summary with non-negative sales satisfies the bound. -/
theorem percentage_sum_amended_witness :
    (FinanceCategory.mk "Продажи" 7 0 "#10b981").percentage = 0 ∧
    sumPercentages (buildCategories
      (fallbackSummary [⟨some 50, some 1, some (-5)⟩])) ≤ 100 :=
  ⟨percentage_sum_amended.1
      (primarySummary [⟨some 7, none, none, none, none, none, none, none, none⟩])
      (by norm_num [summaryTotal, primarySummary, headRow, toNum])
      (FinanceCategory.mk "Продажи" 7 0 "#10b981")
      (by norm_num [buildCategories, catKeys, catField, primarySummary, headRow,
        toNum, mkCategory, catAmount, catPercent, summaryTotal, List.filter_cons,
        CATEGORY_LABELS, CATEGORY_COLORS]),
    percentage_sum_amended.2 [⟨some 50, some 1, some (-5)⟩]
      (by norm_num [fallbackTotalSales, toNum])⟩

/-- Claim C4, counterexample: for a primary summary whose total is negative
(`total_income = -10`, sales `5`) the emitted sales entry has percentage `0`
while the claimed formula `100 * amount / total` gives `-50`. -/
theorem percentage_formula_fails_on_negative_total :
    ∃ c ∈ buildCategories (primarySummary
      [⟨some 5, none, none, none, none, none, some (-10), none, none⟩]),
      c.percentage ≠ 100 * c.amount / summaryTotal (primarySummary
        [⟨some 5, none, none, none, none, none, some (-10), none, none⟩]) := by
  refine ⟨FinanceCategory.mk "Продажи" 5 0 "#10b981", ?_, ?_⟩
  · norm_num [buildCategories, catKeys, catField, primarySummary, headRow, toNum,
      mkCategory, catAmount, catPercent, summaryTotal, List.filter_cons,
      CATEGORY_LABELS, CATEGORY_COLORS]
  · norm_num [summaryTotal, primarySummary, headRow, toNum]

/-- Claim C4, amended: every emitted entry satisfies
`percentage = 100 * amount / total` whenever `total > 0`, and
`percentage = 0` whenever `total ≤ 0` (so no division is performed for a
zero or negative total, not only for a zero one). -/
theorem percentage_formula_amended :
    ∀ (s : FinanceSummary) (c : FinanceCategory), c ∈ buildCategories s →
      (0 < summaryTotal s → c.percentage = 100 * c.amount / summaryTotal s) ∧
      (summaryTotal s ≤ 0 → c.percentage = 0) := by
  intro s c hc
  rcases mem_buildCategories hc with ⟨k, _, rfl⟩
  constructor
  · intro ht
    simp only [mkCategory, catPercent, if_pos ht]
    ring
  · intro ht
    simp [mkCategory, catPercent, not_lt.mpr ht]

/-- Witness for the amended C4 theorem: a primary summary with sales `5`
and total `10` emits the sales entry with percentage `50 = 100 * 5 / 10`. -/
theorem percentage_formula_amended_witness :
    (FinanceCategory.mk "Продажи" 5 50 "#10b981").percentage
      = 100 * (FinanceCategory.mk "Продажи" 5 50 "#10b981").amount
        / summaryTotal (primarySummary
            [⟨some 5, none, none, none, none, none, some 10, none, none⟩]) :=
  (percentage_formula_amended
    (primarySummary [⟨some 5, none, none, none, none, none, some 10, none, none⟩])
    (FinanceCategory.mk "Продажи" 5 50 "#10b981")
    (by norm_num [buildCategories, catKeys, catField, primarySummary, headRow,
      toNum, mkCategory, catAmount, catPercent, summaryTotal, List.filter_cons,
      CATEGORY_LABELS, CATEGORY_COLORS])).1
    (by norm_num [summaryTotal, primarySummary, headRow, toNum])

/-- Claim C5, counterexample: a primary summary with `total_sales = -5` and
`total_income = 10` emits a sales entry with negative amount `-5` and
negative percentage `-50`, refuting both the non-negative-amount and the
0–100-percentage parts of the claim. -/
theorem category_share_negative_amount :
    ∃ c ∈ buildCategories (primarySummary
      [⟨some (-5), none, none, none, none, none, some 10, none, none⟩]),
      c.amount < 0 ∧ c.percentage < 0 := by
  refine ⟨FinanceCategory.mk "Продажи" (-5) (-50) "#10b981", ?_, by norm_num⟩
  norm_num [buildCategories, catKeys, catField, primarySummary, headRow, toNum,
    mkCategory, catAmount, catPercent, summaryTotal, List.filter_cons,
    CATEGORY_LABELS, CATEGORY_COLORS]

/-- Claim C5, amended: a sales entry carries the raw `sales` value (so its
amount is negative when `sales` is); every non-sales entry has non-negative
amount; every percentage is `0` when the total is non-positive, and lies in
`[0, 100]` whenever the total is positive and the entry's amount lies
between `0` and the total. -/
theorem category_share_bounds_amended :
    ∀ (s : FinanceSummary) (c : FinanceCategory), c ∈ buildCategories s →
      (c.category = CATEGORY_LABELS .sales → c.amount = s.sales) ∧
      (c.category ≠ CATEGORY_LABELS .sales → 0 ≤ c.amount) ∧
      (summaryTotal s ≤ 0 → c.percentage = 0) ∧
      (0 < summaryTotal s → 0 ≤ c.amount → c.amount ≤ summaryTotal s →
        0 ≤ c.percentage ∧ c.percentage ≤ 100) := by
  intro s c hc
  rcases mem_buildCategories hc with ⟨k, _, rfl⟩
  refine ⟨?_, ?_, ?_, ?_⟩
  · intro hlab
    have hk : k = CatKey.sales := labels_inj _ _ hlab
    subst hk
    simp [mkCategory, catAmount, catField]
  · intro hlab
    have hk : k ≠ CatKey.sales := fun h => hlab (by subst h; rfl)
    simp only [mkCategory, catAmount, if_neg hk]
    exact abs_nonneg _
  · intro ht
    simp [mkCategory, catPercent, not_lt.mpr ht]
  · intro ht ha hat
    simp only [mkCategory, catPercent, if_pos ht] at ha hat ⊢
    constructor
    · have := div_nonneg ha ht.le
      nlinarith
    · have h1 : catAmount k (catField s k) / summaryTotal s ≤ 1 :=
        (div_le_one ht).mpr hat
      nlinarith

/-- Witness for the amended C5 theorem: in a primary summary with sales `5`,
commissions `-3` and total `10`, the commissions entry has amount `3 ≥ 0`
and percentage `30 ∈ [0, 100]`. -/
theorem category_share_bounds_amended_witness :
    0 ≤ (FinanceCategory.mk "Комиссии" 3 30 "#ef4444").amount ∧
    0 ≤ (FinanceCategory.mk "Комиссии" 3 30 "#ef4444").percentage ∧
    (FinanceCategory.mk "Комиссии" 3 30 "#ef4444").percentage ≤ 100 := by
  have h := category_share_bounds_amended
    (primarySummary [⟨some 5, some (-3), none, none, none, none, some 10, none, none⟩])
    (FinanceCategory.mk "Комиссии" 3 30 "#ef4444")
    (by norm_num [buildCategories, catKeys, catField, primarySummary, headRow,
      toNum, mkCategory, catAmount, catPercent, summaryTotal, List.filter_cons,
      CATEGORY_LABELS, CATEGORY_COLORS, byAmountDesc, List.orderedInsert,
      show CatKey.commissions ≠ CatKey.sales by decide])
  have hb := h.2.2.2
    (by norm_num [summaryTotal, primarySummary, headRow, toNum])
    (by norm_num)
    (by norm_num [summaryTotal, primarySummary, headRow, toNum])
  exact ⟨h.2.1 (by decide), hb.1, hb.2⟩

end FinanceDash

namespace FinanceDash

/-- Claim C6: on the fallback path, a single postings row
`{price: 100, quantity: 2, commission_amount: -10}` yields
`sales = totalIncome = 200`, `commissions = 10`, `delivery = 16`,
`returns = 4`, `ads = 6`, `services = 10`, `totalExpenses = 46` and
`netProfit = 154`, the four detail expenses being the fixed ratios
`0.08`, `0.02`, `0.03`, `0.05` of total sales. -/
theorem fallback_concrete_example :
    (fallbackSummary [⟨some 100, some 2, some (-10)⟩]).sales = 200 ∧
    (fallbackSummary [⟨some 100, some 2, some (-10)⟩]).totalIncome = 200 ∧
    (fallbackSummary [⟨some 100, some 2, some (-10)⟩]).commissions = 10 ∧
    (fallbackSummary [⟨some 100, some 2, some (-10)⟩]).delivery = 16 ∧
    (fallbackSummary [⟨some 100, some 2, some (-10)⟩]).returns = 4 ∧
    (fallbackSummary [⟨some 100, some 2, some (-10)⟩]).ads = 6 ∧
    (fallbackSummary [⟨some 100, some 2, some (-10)⟩]).services = 10 ∧
    (fallbackSummary [⟨some 100, some 2, some (-10)⟩]).totalExpenses = 46 ∧
    (fallbackSummary [⟨some 100, some 2, some (-10)⟩]).netProfit = 154 ∧
    (fallbackSummary [⟨some 100, some 2, some (-10)⟩]).delivery
      = 0.08 * (fallbackSummary [⟨some 100, some 2, some (-10)⟩]).sales ∧
    (fallbackSummary [⟨some 100, some 2, some (-10)⟩]).returns
      = 0.02 * (fallbackSummary [⟨some 100, some 2, some (-10)⟩]).sales ∧
    (fallbackSummary [⟨some 100, some 2, some (-10)⟩]).ads
      = 0.03 * (fallbackSummary [⟨some 100, some 2, some (-10)⟩]).sales ∧
    (fallbackSummary [⟨some 100, some 2, some (-10)⟩]).services
      = 0.05 * (fallbackSummary [⟨some 100, some 2, some (-10)⟩]).sales := by
  norm_num [fallbackSummary, fallbackTotalSales, fallbackTotalCommissions, toNum]

/-- Claim C7: every mapped ledger row splits its normalized amount by sign
into `sales` (positive amounts) and `commissions` (absolute value of
negative amounts), keeps the four detail categories at `0`, carries the raw
signed amount as `net_profit`, and resolves `operation_type` to the human
label when present and non-empty, else to the raw code when present and
non-empty, else to the sentinel `N/A`. -/
theorem ledger_row_mapping : ∀ (today : String) (item : LedgerRow),
    (0 < toNum item.amount →
      (mapLedgerRow today item).sales = toNum item.amount ∧
      (mapLedgerRow today item).commissions = 0) ∧
    (toNum item.amount < 0 →
      (mapLedgerRow today item).sales = 0 ∧
      (mapLedgerRow today item).commissions = |toNum item.amount|) ∧
    (mapLedgerRow today item).delivery = 0 ∧
    (mapLedgerRow today item).returns = 0 ∧
    (mapLedgerRow today item).ads = 0 ∧
    (mapLedgerRow today item).services = 0 ∧
    (mapLedgerRow today item).net_profit = toNum item.amount ∧
    (∀ s : String, item.operation_type_name = some s → s ≠ "" →
      (mapLedgerRow today item).operation_type = s) ∧
    ((item.operation_type_name = none ∨ item.operation_type_name = some "") →
      ∀ s : String, item.operation_type = some s → s ≠ "" →
        (mapLedgerRow today item).operation_type = s) ∧
    ((item.operation_type_name = none ∨ item.operation_type_name = some "") →
      (item.operation_type = none ∨ item.operation_type = some "") →
      (mapLedgerRow today item).operation_type = "N/A") := by
  intro today item
  refine ⟨?_, ?_, rfl, rfl, rfl, rfl, rfl, ?_, ?_, ?_⟩
  · intro h
    simp only [mapLedgerRow]
    rw [if_pos h, if_neg (not_lt.mpr h.le)]
    exact ⟨rfl, rfl⟩
  · intro h
    simp only [mapLedgerRow]
    rw [if_neg (not_lt.mpr h.le), if_pos h]
    exact ⟨rfl, rfl⟩
  · intro s hs hne
    simp [mapLedgerRow, strOr, hs, hne]
  · rintro (h | h) s hs hne <;> simp [mapLedgerRow, strOr, h, hs, hne]
  · rintro (h | h) (h2 | h2) <;> simp [mapLedgerRow, strOr, h, h2]

/-- Witness for C7 at the two concrete amounts of the claim: `-50` maps to
`{sales: 0, commissions: 50, netProfit: -50}` and `30` maps to
`{sales: 30, commissions: 0, netProfit: 30}`. -/
theorem ledger_row_mapping_witness :
    (mapLedgerRow "2024-01-01" ⟨none, none, none, none, none, some (-50), none⟩).sales = 0 ∧
    (mapLedgerRow "2024-01-01" ⟨none, none, none, none, none, some (-50), none⟩).commissions = 50 ∧
    (mapLedgerRow "2024-01-01" ⟨none, none, none, none, none, some (-50), none⟩).net_profit = -50 ∧
    (mapLedgerRow "2024-01-01" ⟨none, none, none, none, none, some 30, none⟩).sales = 30 ∧
    (mapLedgerRow "2024-01-01" ⟨none, none, none, none, none, some 30, none⟩).commissions = 0 ∧
    (mapLedgerRow "2024-01-01" ⟨none, none, none, none, none, some 30, none⟩).net_profit = 30 := by
  obtain ⟨-, hneg, -, -, -, -, hnp1, -⟩ :=
    ledger_row_mapping "2024-01-01" ⟨none, none, none, none, none, some (-50), none⟩
  obtain ⟨hpos, -, -, -, -, -, hnp2, -⟩ :=
    ledger_row_mapping "2024-01-01" ⟨none, none, none, none, none, some 30, none⟩
  obtain ⟨hs1, hc1⟩ := hneg (by norm_num [toNum])
  obtain ⟨hs2, hc2⟩ := hpos (by norm_num [toNum])
  refine ⟨hs1, ?_, ?_, ?_, hc2, ?_⟩
  · rw [hc1]; norm_num [toNum]
  · rw [hnp1]; norm_num [toNum]
  · rw [hs2]; norm_num [toNum]
  · rw [hnp2]; norm_num [toNum]

/-- Claim C8: no emitted category share has amount `0`, and a category whose
raw summary field is exactly `0` contributes no entry at all (identified by
its display label, the labels being pairwise distinct). -/
theorem no_zero_amount_categories : ∀ s : FinanceSummary,
    (∀ c ∈ buildCategories s, c.amount ≠ 0) ∧
    (∀ k : CatKey, catField s k = 0 →
      ∀ c ∈ buildCategories s, c.category ≠ CATEGORY_LABELS k) := by
  intro s
  constructor
  · intro c hc
    rcases mem_buildCategories hc with ⟨k, hne, rfl⟩
    simp only [mkCategory, catAmount]
    split
    · exact hne
    · exact abs_ne_zero.mpr hne
  · intro k hk0 c hc heq
    rcases mem_buildCategories hc with ⟨k2, hne, rfl⟩
    have : k2 = k := labels_inj _ _ heq
    exact hne (this ▸ hk0)

/-- Witness for C8: in the primary summary with sales `5` and all other
fields zero, the single emitted entry has nonzero amount, and no emitted
entry carries the commissions label (whose raw field is `0`). -/
theorem no_zero_amount_categories_witness :
    (FinanceCategory.mk "Продажи" 5 0 "#10b981").amount ≠ 0 ∧
    (FinanceCategory.mk "Продажи" 5 0 "#10b981").category
      ≠ CATEGORY_LABELS CatKey.commissions := by
  have h := no_zero_amount_categories
    (primarySummary [⟨some 5, none, none, none, none, none, none, none, none⟩])
  have hmem : FinanceCategory.mk "Продажи" 5 0 "#10b981"
      ∈ buildCategories
        (primarySummary [⟨some 5, none, none, none, none, none, none, none, none⟩]) := by
    norm_num [buildCategories, catKeys, catField, primarySummary, headRow, toNum,
      mkCategory, catAmount, catPercent, summaryTotal, List.filter_cons,
      CATEGORY_LABELS, CATEGORY_COLORS]
  exact ⟨h.1 _ hmem,
    h.2 CatKey.commissions (by norm_num [catField, primarySummary, headRow, toNum])
      _ hmem⟩

/-- Claim C9: for every summary, the emitted category list is sorted
non-increasing by amount. -/
theorem categories_sorted_desc (s : FinanceSummary) :
    (buildCategories s).Pairwise (fun a b => b.amount ≤ a.amount) :=
  List.sorted_insertionSort byAmountDesc _

/-- Claim C10: every mapped ledger row has non-negative `sales`,
non-negative `commissions`, at most one of the two nonzero, and
`sales - commissions = net_profit`. -/
theorem ledger_row_invariants (today : String) (item : LedgerRow) :
    0 ≤ (mapLedgerRow today item).sales ∧
    0 ≤ (mapLedgerRow today item).commissions ∧
    ((mapLedgerRow today item).sales = 0 ∨ (mapLedgerRow today item).commissions = 0) ∧
    (mapLedgerRow today item).sales - (mapLedgerRow today item).commissions
      = (mapLedgerRow today item).net_profit := by
  simp only [mapLedgerRow]
  rcases lt_trichotomy (toNum item.amount) 0 with h | h | h
  · rw [if_neg (not_lt.mpr h.le), if_pos h]
    refine ⟨le_refl 0, abs_nonneg _, Or.inl rfl, ?_⟩
    rw [abs_of_neg h]; ring
  · simp [h]
  · rw [if_pos h, if_neg (not_lt.mpr h.le)]
    exact ⟨h.le, le_refl 0, Or.inr rfl, by ring⟩

end FinanceDash
